import Mathlib

/-!
Shallow embedding of the Gobackhomee SDK: the Go client in
src/client/client.go, the shared domain types of the types package, and
the content-addressing model of the specification (section 4.4).

External collaborators — JSON encoding of request bodies, request
construction (http.NewRequestWithContext, which validates the method
token and parses the URL), JSON decoding of response bodies, and the
HTTP transport (http.Client.Do) — are passed to each operation as
explicit function parameters.  Every dispatching operation returns,
next to its result, the list of HTTP requests that were handed to the
transport, so that properties about network attempts (how many, with
which headers and bodies) can be stated and proved.
-/

namespace SDK

/-- Bytes of an encoded JSON document on the wire, one natural per byte. -/
abbrev Bytes := List Nat

/-- WalletAuth holds Web3 authentication credentials (client.go).
SignMessage maps a challenge message to a signature or an error. -/
structure WalletAuth where
  WalletAddress : String
  SignMessage : String → Except String String

/-- Client is the Gobackhomee SDK client (client.go).  The embedded
http.Client is represented by its configured timeout in nanoseconds. -/
structure Client where
  baseURL : String
  timeout : Nat
  apiKey : String
  walletAuth : Option WalletAuth

/-- Functional options accepted by New.  The source defines exactly three
option constructors: WithAPIKey, WithWalletAuth and WithTimeout. -/
inductive COption where
  | withAPIKey (key : String)
  | withWalletAuth (auth : WalletAuth)
  | withTimeout (d : Nat)

/-- Action of one functional option on the client under construction:
each option mutates exactly one field, as in client.go. -/
def applyOption (c : Client) : COption → Client
  | .withAPIKey key => { c with apiKey := key }
  | .withWalletAuth auth => { c with walletAuth := some auth }
  | .withTimeout d => { c with timeout := d }

/-- One second in nanoseconds, matching Go time.Second. -/
def second : Nat := 1000000000

/-- New creates a new Gobackhomee client (client.go): the defaults are a
30 second timeout, no API key and no wallet auth, after which the
supplied options are applied in argument order. -/
def New (baseURL : String) (opts : List COption) : Client :=
  List.foldl applyOption
    { baseURL := baseURL, timeout := 30 * second, apiKey := "", walletAuth := none }
    opts

/-- An outgoing HTTP request as handed to the transport. -/
structure Request where
  method : String
  url : String
  body : Option Bytes
  headers : List (String × String)
  deriving DecidableEq, Repr

/-- An HTTP response as produced by the transport. -/
structure Response where
  statusCode : Nat
  body : Bytes
  deriving DecidableEq, Repr

/-- The external transport collaborator (http.Client.Do): a request goes
to the network and yields a response or a transport error. -/
abbrev Transport := Request → Except String Response

/-- The external request-construction collaborator
(http.NewRequestWithContext): given the method and the full URL it
either succeeds or fails — it fails for an invalid method token or a
URL that url.Parse rejects; the body reader plays no part in the
validation.  On success the constructed request is determined by the
method, URL and body, after which doRequest sets the headers itself. -/
abbrev RequestCheck := String → String → Except String Unit

/-- Errors surfaced by the client, tagged by the layer that produced
them, mirroring the four distinguishable error origins of doRequest and
the facade methods: marshalling the request body ("failed to marshal
request body: ..."), constructing the request ("failed to create
request: ..."), the transport (the error of http.Client.Do), and
decoding the response body (the json.Decoder error). -/
inductive ClientError where
  | encodingError (msg : String)
  | creationError (msg : String)
  | transportError (msg : String)
  | decodeError (msg : String)
  deriving DecidableEq, Repr

/-- Construction of the HTTP request inside doRequest (client.go): the
URL is baseURL ++ path, Content-Type is always set to application/json,
and Authorization is set to "Bearer " ++ apiKey exactly when the
configured apiKey is non-empty. -/
def buildRequest (c : Client) (method path : String) (body : Option Bytes) : Request where
  method := method
  url := c.baseURL ++ path
  body := body
  headers :=
    ("Content-Type", "application/json") ::
      (if c.apiKey ≠ "" then [("Authorization", "Bearer " ++ c.apiKey)] else [])

/-- Construct the request via the external collaborator and hand it to
the transport at most once: a construction failure (invalid method
token, unparsable URL) returns the tagged creation error with zero
transport invocations; otherwise the built request — headers set as in
client.go — goes to the transport exactly once, tagging a transport
failure.  The second component records the requests sent. -/
def sendOnce (c : Client) (method path : String) (body : Option Bytes)
    (newReq : RequestCheck) (transport : Transport) :
    Except ClientError Response × List Request :=
  match newReq method (c.baseURL ++ path) with
  | .error e => (.error (.creationError e), [])
  | .ok _ =>
    match transport (buildRequest c method path body) with
    | .error e => (.error (.transportError e), [buildRequest c method path body])
    | .ok resp => (.ok resp, [buildRequest c method path body])

/-- doRequest performs an HTTP request with authentication (client.go):
if a body is present it is marshalled first, and a marshalling failure
returns before any request is built or sent (empty trace); then the
request is constructed — a construction failure also returns with zero
transport invocations — and handed to the transport exactly once. -/
def doRequest {β : Type} (c : Client) (method path : String) (body : Option β)
    (marshal : β → Except String Bytes) (newReq : RequestCheck)
    (transport : Transport) : Except ClientError Response × List Request :=
  match body with
  | none => sendOnce c method path none newReq transport
  | some b =>
    match marshal b with
    | .error e => (.error (.encodingError e), [])
    | .ok jsonBody => sendOnce c method path (some jsonBody) newReq transport

/-- Identity represents a Web3-native identity rooted in wallet
addresses (types package); timestamps are modelled as naturals and the
optional string fields as plain strings, empty when absent. -/
structure Identity where
  id : String
  walletAddress : String
  chain : String
  publicKey : String
  email : String
  createdAt : Nat
  updatedAt : Nat
  deriving DecidableEq, Repr

/-- Project represents a deployment project (types package). -/
structure Project where
  id : String
  name : String
  ownerID : String
  domains : List String
  currentVersion : String
  framework : String
  createdAt : Nat
  updatedAt : Nat
  deriving DecidableEq, Repr

/-- Deployment represents a single deployment version (types package);
hash is the content-addressed Merkle root for trustless verification. -/
structure Deployment where
  id : String
  projectID : String
  version : String
  hash : String
  status : String
  url : String
  createdAt : Nat
  readyAt : Option Nat
  deriving DecidableEq, Repr

/-- Common continuation of every facade method after doRequest
(client.go): a dispatcher error is returned unchanged, otherwise the
response body is decoded — with no inspection of the status code — and a
decoder failure is returned as a decode error. -/
def decodeWith {α : Type} (dec : Bytes → Except String α)
    (r : Except ClientError Response × List Request) :
    Except ClientError α × List Request :=
  match r with
  | (.error e, sent) => (.error e, sent)
  | (.ok resp, sent) =>
    match dec resp.body with
    | .error e => (.error (.decodeError e), sent)
    | .ok a => (.ok a, sent)

/-- SignInWithEthereum performs SIWE authentication (client.go): POST
the caller-supplied message and signature to /api/auth/siwe and decode
the response body into an Identity.  The configured wallet auth is not
consulted anywhere on this path. -/
def SignInWithEthereum (c : Client) (message signature : String)
    (marshal : List (String × String) → Except String Bytes)
    (decodeIdentity : Bytes → Except String Identity) (newReq : RequestCheck)
    (transport : Transport) : Except ClientError Identity × List Request :=
  decodeWith decodeIdentity
    (doRequest c "POST" "/api/auth/siwe"
      (some [("message", message), ("signature", signature)]) marshal newReq transport)

/-- Create creates a new project (client.go): POST the caller-supplied
name — with no local validation — to /api/projects and decode the
response body into a Project. -/
def Create (c : Client) (name : String)
    (marshal : List (String × String) → Except String Bytes)
    (decodeProject : Bytes → Except String Project) (newReq : RequestCheck)
    (transport : Transport) : Except ClientError Project × List Request :=
  decodeWith decodeProject
    (doRequest c "POST" "/api/projects" (some [("name", name)]) marshal newReq transport)

/-- ProjectsList lists all projects for the authenticated user — the
List method of ProjectsService in client.go: GET /api/projects with a
nil body (so nothing is marshalled) and decode the response body into a
list of Projects. -/
def ProjectsList (c : Client) (decodeProjects : Bytes → Except String (List Project))
    (newReq : RequestCheck) (transport : Transport) :
    Except ClientError (List Project) × List Request :=
  decodeWith decodeProjects
    (doRequest (β := Empty) c "GET" "/api/projects" none (fun x => x.elim) newReq transport)

/-- GenerateSchema uses AI to generate a schema (client.go): POST the
description to /api/ai/schema and decode the response body into the
schema string of the anonymous result struct. -/
def GenerateSchema (c : Client) (description : String)
    (marshal : List (String × String) → Except String Bytes)
    (decodeSchema : Bytes → Except String String) (newReq : RequestCheck)
    (transport : Transport) : Except ClientError String × List Request :=
  decodeWith decodeSchema
    (doRequest c "POST" "/api/ai/schema" (some [("description", description)])
      marshal newReq transport)

/-- Embed generates embeddings for the given text (client.go): POST the
text to /api/ai/embed and decode the response body into the embedding
vector of the anonymous result struct; the float32 entries are modelled
as rationals. -/
def Embed (c : Client) (text : String)
    (marshal : List (String × String) → Except String Bytes)
    (decodeEmbedding : Bytes → Except String (List Rat)) (newReq : RequestCheck)
    (transport : Transport) : Except ClientError (List Rat) × List Request :=
  decodeWith decodeEmbedding
    (doRequest c "POST" "/api/ai/embed" (some [("text", text)]) marshal newReq transport)

/-- Modelled from the spec: the content-addressing model of section 4.4
is absent from the source, which only gestures at it through the Hash
field of Deployment; an artifact set is a finite set of
(relative path, content bytes) pairs, modelled as a list. -/
abbrev ArtifactSet := List (String × Bytes)

/-- Modelled from the spec: lexicographic path order used to
canonicalize the artifact set independently of enumeration order. -/
def pathLe (a b : String) : Bool := decide (a ≤ b)

/-- Modelled from the spec: insertion of one artifact into a
path-sorted artifact list, keeping it sorted. -/
def insertSorted (p : String × Bytes) : ArtifactSet → ArtifactSet
  | [] => [p]
  | q :: rest => if pathLe p.1 q.1 then p :: q :: rest else q :: insertSorted p rest

/-- Modelled from the spec: canonicalization of the artifact set as a
sequence sorted lexicographically by path (step 1 of section 4.4). -/
def sortByPath : ArtifactSet → ArtifactSet
  | [] => []
  | p :: rest => insertSorted p (sortByPath rest)

/-- Modelled from the spec: the leaf digest of one artifact is the
pinned hash function H applied to path bytes followed by content bytes
(step 2 of section 4.4). -/
def leafHash (H : Bytes → Nat) (p : String × Bytes) : Nat :=
  H (p.1.data.map Char.toNat ++ p.2)

/-- Modelled from the spec: one level of the binary Merkle combination —
adjacent digests are hashed pairwise and an odd trailing digest is
duplicated (step 3 of section 4.4). -/
def merkleLevel (H : Bytes → Nat) : List Nat → List Nat
  | [] => []
  | [a] => [H [a, a]]
  | a :: b :: rest => H [a, b] :: merkleLevel H rest

/-- Each Merkle level at least halves (rounding up) the number of
digests, which bounds the recursion of the root computation. -/
theorem merkleLevel_length (H : Bytes → Nat) :
    (l : List Nat) → (merkleLevel H l).length = (l.length + 1) / 2
  | [] => by simp [merkleLevel]
  | [_] => by simp [merkleLevel]
  | _ :: _ :: rest => by
    simp [merkleLevel, merkleLevel_length H rest]
    omega

/-- Modelled from the spec: the reserved, protocol-defined root constant
for the empty artifact set (step 3 of section 4.4). -/
def emptyRoot : Nat := 0

/-- Modelled from the spec: collapse a list of digests into the single
Merkle root by repeated pairwise combination (step 3 of section 4.4). -/
def merkleRoot (H : Bytes → Nat) (l : List Nat) : Nat :=
  match l with
  | [] => emptyRoot
  | [a] => a
  | a :: b :: rest => merkleRoot H (merkleLevel H (a :: b :: rest))
termination_by l.length
decreasing_by
  simp [merkleLevel, merkleLevel_length]
  omega

/-- Modelled from the spec: the digest of an artifact set — sort the
artifacts by path, hash each leaf, and collapse to the Merkle root; this
is the content of the Hash field of a Deployment, absent as code from
the source. -/
def digest (H : Bytes → Nat) (A : ArtifactSet) : Nat :=
  merkleRoot H ((sortByPath A).map (leafHash H))

/-- Outcome of integrity verification: success, or the hard integrity
failure of the specification. -/
inductive VerifyResult where
  | ok
  | integrityMismatch
  deriving DecidableEq, Repr

/-- Modelled from the spec: verification recomputes the root of the
downloaded artifact set via the same algorithm and compares it with the
claimed digest for exact equality; any mismatch is the hard failure
IntegrityMismatch, never silently ignored. -/
def verify (H : Bytes → Nat) (claimed : Nat) (A : ArtifactSet) : VerifyResult :=
  if digest H A = claimed then .ok else .integrityMismatch

/-!
Helper lemmas about the dispatch trace and about which client fields the
dispatch path reads.
-/

/-- When request construction succeeds, the trace of sendOnce is the
one built request, whatever the transport answers. -/
theorem sendOnce_trace_ok (c : Client) (method path : String) (body : Option Bytes)
    (newReq : RequestCheck) (transport : Transport)
    (hcr : newReq method (c.baseURL ++ path) = .ok ()) :
    (sendOnce c method path body newReq transport).2 =
      [buildRequest c method path body] := by
  unfold sendOnce
  rw [hcr]
  cases h : transport (buildRequest c method path body) <;> simp [h]

/-- Every request in the trace of sendOnce is the built request. -/
theorem sendOnce_trace_mem (c : Client) (method path : String) (body : Option Bytes)
    (newReq : RequestCheck) (transport : Transport) (req : Request)
    (hreq : req ∈ (sendOnce c method path body newReq transport).2) :
    req = buildRequest c method path body := by
  unfold sendOnce at hreq
  cases hcr : newReq method (c.baseURL ++ path) with
  | error e => simp [hcr] at hreq
  | ok u =>
    cases h : transport (buildRequest c method path body) with
    | error e => simp [hcr, h] at hreq; exact hreq
    | ok resp => simp [hcr, h] at hreq; exact hreq

/-- sendOnce hands at most one request to the transport. -/
theorem sendOnce_trace_len (c : Client) (method path : String) (body : Option Bytes)
    (newReq : RequestCheck) (transport : Transport) :
    (sendOnce c method path body newReq transport).2.length ≤ 1 := by
  unfold sendOnce
  cases hcr : newReq method (c.baseURL ++ path) with
  | error e => simp
  | ok u => cases h : transport (buildRequest c method path body) <;> simp

/-- Every request in the trace of doRequest is the built request for
some (marshalled or absent) body. -/
theorem doRequest_trace_mem {β : Type} (c : Client) (method path : String)
    (body : Option β) (marshal : β → Except String Bytes) (newReq : RequestCheck)
    (transport : Transport) (req : Request)
    (hreq : req ∈ (doRequest c method path body marshal newReq transport).2) :
    ∃ bb, req = buildRequest c method path bb := by
  cases body with
  | none =>
    rw [doRequest] at hreq
    exact ⟨none, sendOnce_trace_mem c method path none newReq transport req hreq⟩
  | some b =>
    rw [doRequest] at hreq
    cases hm : marshal b with
    | error e => rw [hm] at hreq; simp at hreq
    | ok bs =>
      rw [hm] at hreq
      exact ⟨some bs,
        sendOnce_trace_mem c method path (some bs) newReq transport req (by simpa using hreq)⟩

/-- doRequest hands at most one request to the transport. -/
theorem doRequest_trace_len {β : Type} (c : Client) (method path : String)
    (body : Option β) (marshal : β → Except String Bytes) (newReq : RequestCheck)
    (transport : Transport) :
    (doRequest c method path body marshal newReq transport).2.length ≤ 1 := by
  cases body with
  | none => rw [doRequest]; exact sendOnce_trace_len c method path none newReq transport
  | some b =>
    rw [doRequest]
    cases hm : marshal b with
    | error e => simp
    | ok bs =>
      simpa using sendOnce_trace_len c method path (some bs) newReq transport

/-- Decoding the response leaves the dispatch trace unchanged. -/
theorem decodeWith_trace {α : Type} (dec : Bytes → Except String α)
    (r : Except ClientError Response × List Request) :
    (decodeWith dec r).2 = r.2 := by
  rcases r with ⟨res, sent⟩
  cases res with
  | error e => rfl
  | ok resp =>
    cases h : dec resp.body <;> simp [decodeWith, h]

/-- A dispatcher error is passed through decodeWith unchanged. -/
theorem decodeWith_error {α : Type} (dec : Bytes → Except String α)
    (r : Except ClientError Response × List Request) (e : ClientError)
    (h : r.1 = .error e) : (decodeWith dec r).1 = .error e := by
  rcases r with ⟨res, sent⟩
  cases res with
  | error x => simp at h; simp [decodeWith, h]
  | ok resp => simp at h

/-- The built request depends only on the base URL and the API key of
the client; in particular the wallet auth field is never read. -/
theorem buildRequest_congr (a b : Client) (h1 : a.baseURL = b.baseURL)
    (h2 : a.apiKey = b.apiKey) (method path : String) (body : Option Bytes) :
    buildRequest a method path body = buildRequest b method path body := by
  simp [buildRequest, h1, h2]

/-- The full dispatch depends only on the base URL and the API key of
the client. -/
theorem doRequest_congr {β : Type} (a b : Client) (h1 : a.baseURL = b.baseURL)
    (h2 : a.apiKey = b.apiKey) (method path : String) (body : Option β)
    (marshal : β → Except String Bytes) (newReq : RequestCheck)
    (transport : Transport) :
    doRequest a method path body marshal newReq transport =
      doRequest b method path body marshal newReq transport := by
  have hs : ∀ bb, sendOnce a method path bb newReq transport =
      sendOnce b method path bb newReq transport := by
    intro bb
    unfold sendOnce
    rw [buildRequest_congr a b h1 h2 method path bb, h1]
  cases body with
  | none => rw [doRequest, doRequest, hs]
  | some x =>
    rw [doRequest, doRequest]
    cases marshal x with
    | error e => rfl
    | ok bs => simpa using hs (some bs)

/-!
Concrete collaborator doubles used by the closed counterexample and
witness theorems: a computable body encoder, trivially succeeding
decoders, and transports answering with a fixed status.
-/

/-- A concrete, always-succeeding body encoder: concatenate the bytes of
every key and value in order. -/
def marshalD (ps : List (String × String)) : Except String Bytes :=
  .ok (ps.foldr (fun p acc => p.1.data.map Char.toNat ++ p.2.data.map Char.toNat ++ acc) [])

/-- A concrete identity, as a decoder double would produce it. -/
def identD : Identity := ⟨"id-1", "0xabcd", "ethereum", "", "", 0, 0⟩

/-- A concrete project, as a decoder double would produce it. -/
def projD : Project := ⟨"p-1", "", "id-1", [], "", "", 0, 0⟩

/-- A decoder double that always produces identD. -/
def decIdentD : Bytes → Except String Identity := fun _ => .ok identD

/-- A decoder double that always produces projD. -/
def decProjD : Bytes → Except String Project := fun _ => .ok projD

/-- A decoder double that always produces the empty project list. -/
def decProjsD : Bytes → Except String (List Project) := fun _ => .ok []

/-- A transport double answering every request with status 200. -/
def transport200 : Transport := fun _ => .ok ⟨200, [1]⟩

/-- A transport double answering every request with status 500 and a
body that still decodes, to probe the handling of non-success status. -/
def transport500 : Transport := fun _ => .ok ⟨500, [7]⟩

/-- A request-construction double mirroring net/http validation: the
method token "BAD METHOD" is rejected (a token with a space is invalid,
so http.NewRequestWithContext fails on it) and every other method and
URL is accepted. -/
def newReqCheckD : RequestCheck := fun method _ =>
  if method = "BAD METHOD" then .error "invalid method" else .ok ()

/-- A wallet auth double whose signing capability always succeeds. -/
def waD : WalletAuth := ⟨"0xabcd", fun _ => .ok "signature"⟩

/-- A client configured with both credential mechanisms at once. -/
def cBoth : Client := New "http://core" [.withAPIKey "k", .withWalletAuth waD]

/-- A wallet auth double whose signing capability always fails. -/
def waFail : WalletAuth := ⟨"0xabcd", fun _ => .error "signer failure"⟩

/-- A client configured only with the failing signing capability. -/
def cSignerFails : Client := New "http://core" [.withWalletAuth waFail]

/-- A concrete hash double for the content-addressing witness. -/
def hashD (l : Bytes) : Nat := l.foldl (fun a x => a * 131 + x + 1) 7

/-- C1, counterexample: a client configured with neither an API key nor
a wallet signing capability does not fail with AuthUnavailable before
the network call — doRequest hands the request to the transport (one
recorded invocation) and returns the transport response. -/
theorem c1_counterexample :
    (doRequest (β := Empty) (New "http://core" []) "GET" "/api/projects" none
        (fun x => x.elim) newReqCheckD transport200).2.length = 1 ∧
    (doRequest (β := Empty) (New "http://core" []) "GET" "/api/projects" none
        (fun x => x.elim) newReqCheckD transport200).1 = .ok ⟨200, [1]⟩ :=
  ⟨rfl, rfl⟩

/-- C1, amended: for a client with neither a static API key nor wallet
auth, a doRequest call whose request construction succeeds still
proceeds to the transport — the trace is exactly the one built request —
and that request carries no Authorization header; no credential check
and no AuthUnavailable failure exist on this path (its only failures
are the encoding, creation, transport and decode ones). -/
theorem c1_amended_request_proceeds (c : Client) (hkey : c.apiKey = "")
    (_hw : c.walletAuth = none) (method path : String) (body : Option Bytes)
    (newReq : RequestCheck) (transport : Transport)
    (hcr : newReq method (c.baseURL ++ path) = .ok ()) :
    (doRequest c method path body Except.ok newReq transport).2 =
      [buildRequest c method path body] ∧
    ∀ p ∈ (buildRequest c method path body).headers, p.1 ≠ "Authorization" := by
  constructor
  · cases body with
    | none =>
      rw [doRequest, sendOnce_trace_ok c method path none newReq transport hcr]
    | some bs =>
      simp [doRequest, sendOnce_trace_ok c method path (some bs) newReq transport hcr]
  · intro p hp
    simp [buildRequest, hkey] at hp
    subst hp
    decide

/-- Witness for c1_amended_request_proceeds at a concretely configured
credential-free client whose request construction succeeds. -/
theorem c1_witness :
    (doRequest (New "http://core" []) "GET" "/api/projects" (none : Option Bytes)
        Except.ok newReqCheckD transport200).2 =
      [buildRequest (New "http://core" []) "GET" "/api/projects" none] ∧
    ∀ p ∈ (buildRequest (New "http://core" []) "GET" "/api/projects" none).headers,
      p.1 ≠ "Authorization" :=
  c1_amended_request_proceeds (New "http://core" []) rfl rfl "GET" "/api/projects"
    none newReqCheckD transport200 rfl

/-- C2, counterexample: on a non-success response (status 500) the
dispatcher does not return a RemoteError carrying the status — the
facade decodes the body as the expected shape and returns the decoded
identity. -/
theorem c2_counterexample :
    (SignInWithEthereum (New "http://core" []) "msg" "sig" marshalD decIdentD
        newReqCheckD transport500).1 = .ok identD ∧
    (SignInWithEthereum (New "http://core" []) "msg" "sig" marshalD decIdentD
        newReqCheckD transport500).2.length = 1 :=
  ⟨rfl, rfl⟩

/-- C2, amended: the four error origins are surfaced as distinct errors
— a request-construction failure returns the tagged creation error with
zero transport invocations, a transport error is returned before any
decoding, and a decoder error is tagged as a decode error — but the
status code is never inspected: a response is decoded whatever its
status, and no RemoteError exists in the code. -/
theorem c2_amended_error_taxonomy (c : Client) (message signature : String)
    (marshal : List (String × String) → Except String Bytes)
    (dec : Bytes → Except String Identity) (e d f : String) (resp : Response)
    (ident : Identity) (bs : Bytes) (newReq : RequestCheck) (transport : Transport)
    (hm : marshal [("message", message), ("signature", signature)] = .ok bs)
    (hcr : newReq "POST" (c.baseURL ++ "/api/auth/siwe") = .ok ()) :
    (SignInWithEthereum c message signature marshal dec newReq (fun _ => .error e)).1 =
      .error (.transportError e) ∧
    (dec resp.body = .error d →
      (SignInWithEthereum c message signature marshal dec newReq (fun _ => .ok resp)).1 =
        .error (.decodeError d)) ∧
    (dec resp.body = .ok ident →
      (SignInWithEthereum c message signature marshal dec newReq (fun _ => .ok resp)).1 =
        .ok ident) ∧
    SignInWithEthereum c message signature marshal dec (fun _ _ => .error f) transport =
      (.error (.creationError f), []) ∧
    (ClientError.transportError e ≠ ClientError.decodeError d ∧
      ClientError.creationError f ≠ ClientError.transportError e ∧
      ClientError.creationError f ≠ ClientError.decodeError d) := by
  refine ⟨?_, fun hd => ?_, fun hd => ?_, ?_, by simp, by simp, by simp⟩
  · simp [SignInWithEthereum, doRequest, hm, sendOnce, hcr, decodeWith]
  · simp [SignInWithEthereum, doRequest, hm, sendOnce, hcr, decodeWith, hd]
  · simp [SignInWithEthereum, doRequest, hm, sendOnce, hcr, decodeWith, hd]
  · simp [SignInWithEthereum, doRequest, hm, sendOnce, decodeWith]

/-- Witness for c2_amended_error_taxonomy at concrete collaborator
doubles: a failing transport, a failing decoder, a status-500 response
that still decodes, and a failing request construction. -/
theorem c2_witness :
    (SignInWithEthereum (New "http://core" []) "m" "s" marshalD decIdentD newReqCheckD
        (fun _ => .error "conn refused")).1 = .error (.transportError "conn refused") ∧
    (SignInWithEthereum (New "http://core" []) "m" "s" marshalD
        (fun _ => .error "bad json") newReqCheckD (fun _ => .ok ⟨500, [7]⟩)).1 =
      .error (.decodeError "bad json") ∧
    (SignInWithEthereum (New "http://core" []) "m" "s" marshalD decIdentD newReqCheckD
        (fun _ => .ok ⟨500, [7]⟩)).1 = .ok identD ∧
    SignInWithEthereum (New "http://core" []) "m" "s" marshalD decIdentD
        (fun _ _ => .error "parse error") transport200 =
      (.error (.creationError "parse error"), []) := by
  have h1 := c2_amended_error_taxonomy (New "http://core" []) "m" "s" marshalD decIdentD
    "conn refused" "bad json" "parse error" ⟨500, [7]⟩ identD _ newReqCheckD
    transport200 rfl rfl
  have h2 := c2_amended_error_taxonomy (New "http://core" []) "m" "s" marshalD
    (fun _ => .error "bad json") "conn refused" "bad json" "parse error" ⟨500, [7]⟩
    identD _ newReqCheckD transport200 rfl rfl
  exact ⟨h1.1, h2.2.1 rfl, h1.2.2.1 rfl, h1.2.2.2.1⟩

/-- C3, counterexample: ProjectsService.Create with an empty project
name is not rejected locally — the request is handed to the transport
(one recorded invocation) and the decoded project is returned. -/
theorem c3_counterexample :
    (Create (New "http://core" []) "" marshalD decProjD newReqCheckD
        transport200).2.length = 1 ∧
    (Create (New "http://core" []) "" marshalD decProjD newReqCheckD
        transport200).1 = .ok projD :=
  ⟨rfl, rfl⟩

/-- C3, amended: facade methods perform no local argument validation —
Create issues its dispatcher call for every name, the empty string
included, dispatching exactly one request whenever the body marshals
and request construction succeeds — and return the dispatcher error
unchanged when the dispatcher fails. -/
theorem c3_amended_no_local_validation (c : Client) (name : String)
    (marshal : List (String × String) → Except String Bytes)
    (dec : Bytes → Except String Project) (newReq : RequestCheck)
    (transport : Transport) (bs : Bytes)
    (hm : marshal [("name", name)] = .ok bs)
    (hcr : newReq "POST" (c.baseURL ++ "/api/projects") = .ok ()) :
    (Create c name marshal dec newReq transport).2 =
      [buildRequest c "POST" "/api/projects" (some bs)] ∧
    ∀ e, (doRequest c "POST" "/api/projects" (some [("name", name)])
          marshal newReq transport).1 = .error e →
      (Create c name marshal dec newReq transport).1 = .error e := by
  constructor
  · rw [Create, decodeWith_trace]
    simp [doRequest, hm, sendOnce_trace_ok c "POST" "/api/projects" (some bs) newReq
      transport hcr]
  · intro e he
    rw [Create]
    exact decodeWith_error dec _ e he

/-- Witness for c3_amended_no_local_validation at the empty project
name, once with a responding transport and once with a failing one. -/
theorem c3_witness :
    (Create (New "http://core" []) "" marshalD decProjD newReqCheckD transport200).2 =
      [buildRequest (New "http://core" []) "POST" "/api/projects"
        (some ("name".data.map Char.toNat ++ ("".data.map Char.toNat ++ [])))] ∧
    (Create (New "http://core" []) "" marshalD decProjD newReqCheckD
        (fun _ => .error "conn refused")).1 = .error (.transportError "conn refused") := by
  have h1 := c3_amended_no_local_validation (New "http://core" []) "" marshalD decProjD
    newReqCheckD transport200 _ rfl rfl
  have h2 := c3_amended_no_local_validation (New "http://core" []) "" marshalD decProjD
    newReqCheckD (fun _ => .error "conn refused") _ rfl rfl
  exact ⟨h1.1, h2.2 (.transportError "conn refused") rfl⟩

/-- C4, counterexample: a client accepts both credential mechanisms at
once — after WithAPIKey and WithWalletAuth, both fields are populated —
and the resulting SIWE sign-in request is prepared with both the static
bearer token in its headers and the wallet-challenge material (message
and signature) in its body. -/
theorem c4_counterexample :
    cBoth.apiKey = "k" ∧ cBoth.walletAuth = some waD ∧
    (SignInWithEthereum cBoth "msg" "sig" marshalD decIdentD newReqCheckD
        transport200).2 =
      [⟨"POST", "http://core/api/auth/siwe",
        some ("message".data.map Char.toNat ++ ("msg".data.map Char.toNat ++
          ("signature".data.map Char.toNat ++ ("sig".data.map Char.toNat ++ [])))),
        [("Content-Type", "application/json"), ("Authorization", "Bearer k")]⟩] :=
  ⟨rfl, rfl, rfl⟩

/-- C4, amended: the two credential mechanisms are not mutually
exclusive in configuration, but request preparation reads only the
static token: doRequest is invariant under any change of the wallet
auth field, so wallet material never reaches a generic request. -/
theorem c4_amended_walletAuth_never_read {β : Type} (c : Client)
    (w v : Option WalletAuth) (method path : String) (body : Option β)
    (marshal : β → Except String Bytes) (newReq : RequestCheck)
    (transport : Transport) :
    doRequest { c with walletAuth := w } method path body marshal newReq transport =
      doRequest { c with walletAuth := v } method path body marshal newReq transport :=
  doRequest_congr _ _ rfl rfl method path body marshal newReq transport

/-- C5, counterexample: with a configured signing capability that always
returns an error, the sign-in flow still succeeds and returns the
decoded identity — it neither invokes the capability nor yields
AuthFailed. -/
theorem c5_counterexample :
    (SignInWithEthereum cSignerFails "msg" "sig" marshalD decIdentD newReqCheckD
        transport200).1 = .ok identD :=
  rfl

/-- C5, amended: SignInWithEthereum never invokes the configured signing
capability — the caller signs externally and passes message and
signature — so the whole flow is invariant under any change of the
wallet auth field, and a capability error cannot influence it. -/
theorem c5_amended_signer_never_invoked (c : Client) (w v : Option WalletAuth)
    (message signature : String)
    (marshal : List (String × String) → Except String Bytes)
    (dec : Bytes → Except String Identity) (newReq : RequestCheck)
    (transport : Transport) :
    SignInWithEthereum { c with walletAuth := w } message signature marshal dec
        newReq transport =
      SignInWithEthereum { c with walletAuth := v } message signature marshal dec
        newReq transport := by
  rw [SignInWithEthereum, SignInWithEthereum,
    doRequest_congr { c with walletAuth := w } { c with walletAuth := v } rfl rfl]

/-- C6: for every pinned hash function and every artifact set A,
verifying A against the digest computed from A succeeds, and any claimed
digest other than the recomputed one is reported as the hard failure
IntegrityMismatch. -/
theorem c6_verify_digest (H : Bytes → Nat) (A : ArtifactSet) :
    verify H (digest H A) A = .ok ∧
    ∀ d, d ≠ digest H A → verify H d A = .integrityMismatch := by
  constructor
  · simp [verify]
  · intro d hd
    rw [verify, if_neg (fun hEq => hd hEq.symm)]

/-- Witness for c6_verify_digest at a concrete hash function, a concrete
two-artifact set, and a concretely wrong claimed digest. -/
theorem c6_witness :
    verify hashD (digest hashD [("index.html", [104, 105]), ("style.css", [98])])
      [("index.html", [104, 105]), ("style.css", [98])] = .ok ∧
    verify hashD (digest hashD [("index.html", [104, 105]), ("style.css", [98])] + 1)
      [("index.html", [104, 105]), ("style.css", [98])] = .integrityMismatch := by
  have h := c6_verify_digest hashD [("index.html", [104, 105]), ("style.css", [98])]
  exact ⟨h.1, h.2 _ (Nat.succ_ne_self _)⟩

/-- C7: when the request body cannot be marshalled, doRequest fails with
the encoding error and no HTTP request is constructed or sent — the
transport trace is empty. -/
theorem c7_encoding_failure_no_network {β : Type} (c : Client) (method path : String)
    (b : β) (marshal : β → Except String Bytes) (newReq : RequestCheck)
    (transport : Transport) (e : String) (h : marshal b = .error e) :
    doRequest c method path (some b) marshal newReq transport =
      (.error (.encodingError e), []) := by
  simp [doRequest, h]

/-- Witness for c7_encoding_failure_no_network at a concrete failing
marshaller. -/
theorem c7_witness :
    doRequest (New "http://core" []) "POST" "/api/projects"
        (some [("name", "x")]) (fun _ => .error "unsupported type") newReqCheckD
        transport200 =
      (.error (.encodingError "unsupported type"), []) :=
  c7_encoding_failure_no_network (New "http://core" []) "POST" "/api/projects"
    [("name", "x")] (fun _ => .error "unsupported type") newReqCheckD transport200
    "unsupported type" rfl

/-- C8: every request handed to the transport by doRequest carries the
Authorization header with value "Bearer " followed by the configured
static token exactly when that token is non-empty, and carries no
Authorization header at all when the token is empty. -/
theorem c8_authorization_header {β : Type} (c : Client) (method path : String)
    (body : Option β) (marshal : β → Except String Bytes) (newReq : RequestCheck)
    (transport : Transport) (req : Request)
    (hreq : req ∈ (doRequest c method path body marshal newReq transport).2) :
    (c.apiKey ≠ "" → ("Authorization", "Bearer " ++ c.apiKey) ∈ req.headers) ∧
    (c.apiKey = "" → ∀ p ∈ req.headers, p.1 ≠ "Authorization") := by
  obtain ⟨bb, rfl⟩ :=
    doRequest_trace_mem c method path body marshal newReq transport req hreq
  constructor
  · intro hk
    simp [buildRequest, hk]
  · intro hk p hp
    simp [buildRequest, hk] at hp
    subst hp
    decide

/-- Witness for c8_authorization_header at a client with a concrete
non-empty API key and a request taken from a concrete dispatch. -/
theorem c8_witness :
    ((New "http://core" [.withAPIKey "k"]).apiKey ≠ "" →
      ("Authorization", "Bearer " ++ (New "http://core" [.withAPIKey "k"]).apiKey) ∈
        (buildRequest (New "http://core" [.withAPIKey "k"]) "GET" "/api/projects"
          none).headers) ∧
    ((New "http://core" [.withAPIKey "k"]).apiKey = "" →
      ∀ p ∈ (buildRequest (New "http://core" [.withAPIKey "k"]) "GET" "/api/projects"
          none).headers, p.1 ≠ "Authorization") :=
  c8_authorization_header (β := Empty) (New "http://core" [.withAPIKey "k"]) "GET"
    "/api/projects" none (fun x => x.elim) newReqCheckD transport200 _
    (by
      rw [doRequest,
        sendOnce_trace_ok (New "http://core" [.withAPIKey "k"]) "GET" "/api/projects"
          none newReqCheckD transport200 rfl]
      exact List.mem_singleton.mpr rfl)

/-- C9, counterexample: a dispatcher call whose request construction
fails — here the invalid method token "BAD METHOD", which net/http
rejects — issues zero network attempts, not exactly one, even though
the body marshalled successfully. -/
theorem c9_counterexample :
    (doRequest (New "http://core" []) "BAD METHOD" "/api/projects"
        (some [("name", "x")]) marshalD newReqCheckD transport200).2.length = 0 ∧
    (doRequest (New "http://core" []) "BAD METHOD" "/api/projects"
        (some [("name", "x")]) marshalD newReqCheckD transport200).1 =
      .error (.creationError "invalid method") :=
  ⟨rfl, rfl⟩

/-- C9, amended: the dispatcher performs no retries — every doRequest
call hands at most one request to the transport, exactly one whenever
the local steps succeed (the body is absent or marshals, and request
construction succeeds) — and no facade method performs more than one
network round trip per invocation. -/
theorem c9_at_most_one_attempt {β : Type} (c : Client) (method path : String)
    (body : Option β) (marshal : β → Except String Bytes)
    (marshalPairs : List (String × String) → Except String Bytes)
    (decI : Bytes → Except String Identity) (decP : Bytes → Except String Project)
    (decPs : Bytes → Except String (List Project)) (decS : Bytes → Except String String)
    (decE : Bytes → Except String (List Rat)) (newReq : RequestCheck)
    (transport : Transport) (message signature name description text : String) :
    (doRequest c method path body marshal newReq transport).2.length ≤ 1 ∧
    (newReq method (c.baseURL ++ path) = .ok () →
      (body = none →
        (doRequest c method path body marshal newReq transport).2.length = 1) ∧
      ∀ b bs, body = some b → marshal b = .ok bs →
        (doRequest c method path body marshal newReq transport).2.length = 1) ∧
    (SignInWithEthereum c message signature marshalPairs decI newReq
      transport).2.length ≤ 1 ∧
    (Create c name marshalPairs decP newReq transport).2.length ≤ 1 ∧
    (ProjectsList c decPs newReq transport).2.length ≤ 1 ∧
    (newReq "GET" (c.baseURL ++ "/api/projects") = .ok () →
      (ProjectsList c decPs newReq transport).2.length = 1) ∧
    (GenerateSchema c description marshalPairs decS newReq transport).2.length ≤ 1 ∧
    (Embed c text marshalPairs decE newReq transport).2.length ≤ 1 := by
  refine ⟨doRequest_trace_len c method path body marshal newReq transport,
    fun hcr => ⟨fun hb => ?_, fun b bs hb hm => ?_⟩, ?_, ?_, ?_, fun hcr => ?_, ?_, ?_⟩
  · subst hb
    rw [doRequest, sendOnce_trace_ok c method path none newReq transport hcr]
    rfl
  · subst hb
    simp [doRequest, hm, sendOnce_trace_ok c method path (some bs) newReq transport hcr]
  · rw [SignInWithEthereum, decodeWith_trace]
    exact doRequest_trace_len c "POST" "/api/auth/siwe" _ marshalPairs newReq transport
  · rw [Create, decodeWith_trace]
    exact doRequest_trace_len c "POST" "/api/projects" _ marshalPairs newReq transport
  · rw [ProjectsList, decodeWith_trace]
    exact doRequest_trace_len c "GET" "/api/projects" _ _ newReq transport
  · rw [ProjectsList, decodeWith_trace, doRequest,
      sendOnce_trace_ok c "GET" "/api/projects" none newReq transport hcr]
    rfl
  · rw [GenerateSchema, decodeWith_trace]
    exact doRequest_trace_len c "POST" "/api/ai/schema" _ marshalPairs newReq transport
  · rw [Embed, decodeWith_trace]
    exact doRequest_trace_len c "POST" "/api/ai/embed" _ marshalPairs newReq transport

/-- Witness for c9_at_most_one_attempt at concrete doubles, covering a
bodyless dispatch, a dispatch with a successfully marshalled body, and
two facade methods, each with a succeeding request construction. -/
theorem c9_witness :
    (doRequest (β := Empty) (New "http://core" []) "GET" "/api/projects" none
        (fun x => x.elim) newReqCheckD transport200).2.length = 1 ∧
    (doRequest (New "http://core" []) "POST" "/api/projects" (some [("name", "x")])
        marshalD newReqCheckD transport200).2.length = 1 ∧
    (SignInWithEthereum (New "http://core" []) "m" "s" marshalD decIdentD newReqCheckD
        transport200).2.length ≤ 1 ∧
    (ProjectsList (New "http://core" []) decProjsD newReqCheckD
        transport200).2.length = 1 := by
  have h1 := c9_at_most_one_attempt (β := Empty) (New "http://core" []) "GET"
    "/api/projects" none (fun x => x.elim) marshalD decIdentD decProjD decProjsD
    (fun _ => .ok "") (fun _ => .ok []) newReqCheckD transport200 "m" "s" "x" "d" "t"
  have h2 := c9_at_most_one_attempt (New "http://core" []) "POST" "/api/projects"
    (some [("name", "x")]) marshalD marshalD decIdentD decProjD decProjsD
    (fun _ => .ok "") (fun _ => .ok []) newReqCheckD transport200 "m" "s" "x" "d" "t"
  exact ⟨(h1.2.1 rfl).1 rfl,
    (h2.2.1 rfl).2 [("name", "x")]
      ("name".data.map Char.toNat ++ ("x".data.map Char.toNat ++ [])) rfl (by rfl),
    h1.2.2.1, h1.2.2.2.2.2.1 rfl⟩

/-- Options other than WithTimeout never touch the timeout field, so a
fold over such options preserves it. -/
theorem foldl_applyOption_timeout (opts : List COption) (c : Client)
    (h : ∀ d, COption.withTimeout d ∉ opts) :
    (List.foldl applyOption c opts).timeout = c.timeout := by
  induction opts generalizing c with
  | nil => rfl
  | cons o rest ih =>
    have hrest : ∀ d, COption.withTimeout d ∉ rest :=
      fun d hd => h d (List.mem_cons_of_mem _ hd)
    cases o with
    | withAPIKey k =>
      rw [List.foldl_cons, ih _ hrest]
      rfl
    | withWalletAuth w =>
      rw [List.foldl_cons, ih _ hrest]
      rfl
    | withTimeout d => exact absurd (List.mem_cons_self _ _) (h d)

/-- C10: New defaults the HTTP timeout to 30 seconds whenever no
WithTimeout option is supplied, and applies the supplied options
strictly in argument order after the defaults, so a trailing option
overrides every earlier setting of the same field. -/
theorem c10_new_defaults_and_option_order (url : String) (opts : List COption) :
    ((∀ d, COption.withTimeout d ∉ opts) → (New url opts).timeout = 30 * second) ∧
    (∀ o, New url (opts ++ [o]) = applyOption (New url opts) o) ∧
    (∀ d, (New url (opts ++ [COption.withTimeout d])).timeout = d) ∧
    (∀ k, (New url (opts ++ [COption.withAPIKey k])).apiKey = k) := by
  refine ⟨fun h => foldl_applyOption_timeout opts _ h, fun o => ?_, fun d => ?_, fun k => ?_⟩
  · rw [New, New, List.foldl_append]
    rfl
  · rw [New, List.foldl_append]
    rfl
  · rw [New, List.foldl_append]
    rfl

/-- Witness for c10_new_defaults_and_option_order: a client built
without WithTimeout keeps the 30 second default, and of two WithTimeout
options the later one wins. -/
theorem c10_witness :
    (New "http://core" [COption.withAPIKey "k"]).timeout = 30 * second ∧
    (New "http://core" ([COption.withTimeout 7] ++ [COption.withTimeout 5])).timeout = 5 := by
  have h1 := c10_new_defaults_and_option_order "http://core" [COption.withAPIKey "k"]
  have h2 := c10_new_defaults_and_option_order "http://core" [COption.withTimeout 7]
  refine ⟨h1.1 ?_, h2.2.2.1 5⟩
  intro d hd
  simp at hd

end SDK
